import Mathlib

/-!
Shallow embedding of the OAE (Organ Adjustment Engine) repository.

The repository holds two variants of the engine: `src/oae.py` (embedded in
namespace `Oae`) and `src/core.py` (embedded in namespace `Core`).  Python
floats are modelled as rationals, Python dicts as association lists with
first-match lookup and in-place assignment (overwrite the first entry for an
existing key, append for a new one), which matches CPython dict semantics on
unique keys.  Wall-clock reads (`time.time()`) are modelled by an explicit
`now` argument.  The external collaborators `hashlib` (SHA-256) and `json`
(serialization) are not part of the repository: the checkpoint embeddings
therefore take the hex digest of the serialized snapshot bytes as an input and
model the path derivation performed by the repository code itself.
-/

/-- Python dict lookup `m[k]` / `m.get(k)`: first entry with the given key. -/
def dictGet {α : Type} : List (String × α) → String → Option α
  | [], _ => none
  | e :: rest, k => if e.1 = k then some e.2 else dictGet rest k

/-- Python dict membership test `k in m`. -/
def dictContains {α : Type} (m : List (String × α)) (k : String) : Bool :=
  (dictGet m k).isSome

/-- Python dict assignment `m[k] = v`: overwrite the first entry with the key,
append a new entry when the key is absent. -/
def dictSet {α : Type} : List (String × α) → String → α → List (String × α)
  | [], k, v => [(k, v)]
  | e :: rest, k, v => if e.1 = k then (k, v) :: rest else e :: dictSet rest k v

/-- Python `props.get(k, d)` for the float-valued `properties` dicts. -/
def getProp (props : List (String × ℚ)) (k : String) (d : ℚ) : ℚ :=
  (dictGet props k).getD d

/-- Contiguous-sublist test on character lists. -/
def isSubChars (needle : List Char) : List Char → Bool
  | [] => needle.isEmpty
  | c :: rest => needle.isPrefixOf (c :: rest) || isSubChars needle rest

/-- Python `needle in hay` on strings: substring containment. -/
def strContains (hay needle : String) : Bool :=
  isSubChars needle.data hay.data

/-- Python `s[:n]` on strings. -/
def strTake (sstr : String) (n : Nat) : String := ⟨sstr.data.take n⟩

/-- Python `s.split(sep)` for a one-character separator. -/
def splitChar (sep : Char) : List Char → List (List Char)
  | [] => [[]]
  | c :: rest =>
    match splitChar sep rest with
    | [] => [[c]]
    | h :: t => if c = sep then [] :: h :: t else (c :: h) :: t

/-- Values stored in the `meta` dict (the engines store strings and numbers;
timestamps are numbers). -/
inductive MVal where
  | str : String → MVal
  | num : ℚ → MVal
deriving DecidableEq

/-- The `meta : Dict[str, Any]` scratch area of a Soken. -/
abbrev MetaMap := List (String × MVal)

/-- Python `float(meta.get(k, d))` where the engine writes only numbers under
the keys it reads back (a non-numeric value would make `float` raise, which is
outside this embedding). -/
def metaNum (m : MetaMap) (k : String) (d : ℚ) : ℚ :=
  match dictGet m k with
  | some (MVal.num q) => q
  | _ => d

/-- A stimulus context dict.  The fields the engines read are `organ_id`,
`intensity` and (core variant only) `alignment`; the `action` tag is never
read and is omitted. -/
structure Context where
  organ_id : Option String := none
  intensity : Option ℚ := none
  alignment : Option ℚ := none
deriving DecidableEq

namespace Oae

/-- `OAEParams` of `src/oae.py` (defaults 0.10, 0.85, 0.05, 0.20). -/
structure OAEParams where
  memory_decay : ℚ := 1/10
  entropy_guard : ℚ := 17/20
  learn_rate : ℚ := 1/20
  recovery_rate : ℚ := 1/5
deriving DecidableEq

/-- `DigitalOrgan` of `src/oae.py` with its default properties dict. -/
structure DigitalOrgan where
  organ_id : String
  schema : String
  volatile : Bool := false
  properties : List (String × ℚ) := [("strength", 10), ("fatigue", 0), ("integrity", 100)]
deriving DecidableEq

/-- `Soken` of `src/oae.py`. -/
structure Soken where
  did : String
  ddna_sha256 : String
  digital_organs : List (String × DigitalOrgan) := []
  meta : MetaMap := []
deriving DecidableEq

/-- The report dict returned by `OAE.resonance` in `src/oae.py`: either the
initial `{"status": "ignored", "impact": 0.0}` value or the motor-branch
report.  The source formats `strength_gain` and `fatigue_spike` as display
strings (`"+{gain:.4f}"`); the embedding records the underlying numbers. -/
inductive Report where
  | noEffect (status : String) (impact : ℚ)
  | motorEffect (organ : String) (strength_gain new_strength fatigue_spike : ℚ)
deriving DecidableEq

/-- Line 67 of `src/oae.py`:
`effective_impact = intensity * (1.0 - (self.params.entropy_guard * 0.3))`. -/
def effectiveImpact (p : OAEParams) (intensity : ℚ) : ℚ :=
  intensity * (1 - p.entropy_guard * (3/10))

/-- The motor-branch property update of `OAE.resonance` (lines 69-76 of
`src/oae.py`): strength is clamped to 100.0 after adding
`effective_impact * learn_rate`, fatigue is clamped to 100.0 after adding
`intensity * 10.0`.  The fatigue read happens after the strength write, as in
the source. -/
def motorProps (p : OAEParams) (intensity : ℚ) (props : List (String × ℚ)) :
    List (String × ℚ) :=
  let current_str := getProp props "strength" 10
  let gain := effectiveImpact p intensity * p.learn_rate
  let props1 := dictSet props "strength" (min 100 (current_str + gain))
  let current_fatigue := getProp props1 "fatigue" 0
  dictSet props1 "fatigue" (min 100 (current_fatigue + intensity * 10))

/-- `OAE.resonance` of `src/oae.py` (lines 54-91).  `if target_id and
target_id in self.soken.digital_organs` is Python truthiness: a missing id or
the empty string short-circuits to the ignored report.  The returned pair is
the new engine state and the report dict. -/
def resonance (ctx : Context) (p : OAEParams) (now : ℚ) (s : Soken) :
    Soken × Report :=
  let intensity := ctx.intensity.getD (1/2)
  match ctx.organ_id with
  | none => (s, Report.noEffect "ignored" 0)
  | some tid =>
    if tid = "" then (s, Report.noEffect "ignored" 0) else
    match dictGet s.digital_organs tid with
    | none => (s, Report.noEffect "ignored" 0)
    | some organ =>
      let meta1 := dictSet (dictSet s.meta "last_active_organ" (MVal.str tid))
        "last_active_ts" (MVal.num now)
      if strContains organ.schema "motor" then
        let gain := effectiveImpact p intensity * p.learn_rate
        let newStr := min 100 (getProp organ.properties "strength" 10 + gain)
        ({ s with
            digital_organs := dictSet s.digital_organs tid
              { organ with properties := motorProps p intensity organ.properties },
            meta := meta1 },
          Report.motorEffect tid gain newStr (intensity * 10))
      else
        -- the `"cognitive" in organ.schema` branch is `pass`, so every
        -- non-motor schema leaves the organ untouched
        ({ s with meta := meta1 }, Report.noEffect "ignored" 0)

/-- Per-organ body of `OAE.decay_tick` (lines 100-111 of `src/oae.py`).
Returns the updated properties and the two flags recording whether the organ
was appended to the `recovered` resp. `atrophied` lists.  The atrophy
condition reads the fatigue value already updated by the recovery step, as in
the source. -/
def decayProps (p : OAEParams) (props : List (String × ℚ)) :
    (List (String × ℚ)) × Bool × Bool :=
  let fat0 := getProp props "fatigue" 0
  let props1 :=
    if 0 < fat0 then dictSet props "fatigue" (max 0 (fat0 - fat0 * p.recovery_rate))
    else props
  let str0 := getProp props1 "strength" 0
  let fat1 := getProp props1 "fatigue" 0
  if 10 < str0 ∧ fat1 < 1 then
    (dictSet props1 "strength" (str0 - str0 * (p.memory_decay * (1/100))),
      decide (0 < fat0), true)
  else (props1, decide (0 < fat0), false)

/-- The summary dict returned by `OAE.decay_tick` in `src/oae.py`.  The source
appends display strings such as `"oid (fatigue -loss)"`; the embedding records
the organ ids, in iteration order. -/
structure DecaySummary where
  recovered : List String
  atrophied : List String
deriving DecidableEq

/-- `OAE.decay_tick` of `src/oae.py` (lines 93-113): the per-organ loop,
expressed as a map over the organ dict plus the two flag-filtered id lists
(the same lists the source builds by appending inside the loop).  The
identity's `meta` is not touched. -/
def decay_tick (p : OAEParams) (s : Soken) : Soken × DecaySummary :=
  let organs1 := s.digital_organs.map
    (fun e => (e.1, { e.2 with properties := (decayProps p e.2.properties).1 }))
  let recovered :=
    (s.digital_organs.filter (fun e => (decayProps p e.2.properties).2.1)).map Prod.fst
  let atrophied :=
    (s.digital_organs.filter (fun e => (decayProps p e.2.properties).2.2)).map Prod.fst
  ({ s with digital_organs := organs1 }, ⟨recovered, atrophied⟩)

/-- Python `self.soken.did.split(':')[-1]` (line 133 of `src/oae.py`). -/
def lastColonSegment (sstr : String) : String :=
  ⟨(splitChar ':' sstr.data).getLastD []⟩

/-- The path returned by `OAE.checkpoint` in `src/oae.py` (lines 131-139),
given the hex digest `digest` that the external `hashlib` collaborator
computes over the `json`-serialized snapshot bytes:
`./oae_checkpoints/{did-last-segment}_{label}_{digest[:12]}.json`. -/
def checkpointPath (s : Soken) (label digest : String) : String :=
  "./oae_checkpoints" ++ "/" ++
    (lastColonSegment s.did ++ "_" ++ label ++ "_" ++ strTake digest 12 ++ ".json")

end Oae

namespace Core

/-- `OAEParams` of `src/core.py` (defaults 0.55, 0.62, 0.08; no
`recovery_rate` in this variant). -/
structure OAEParams where
  memory_decay : ℚ := 11/20
  entropy_guard : ℚ := 31/50
  learn_rate : ℚ := 2/25
deriving DecidableEq

/-- `DigitalOrgan` of `src/core.py`: this variant has no numeric `properties`
dict at all. -/
structure DigitalOrgan where
  organ_id : String
  state_uri : Option String := none
  state_hash : Option String := none
  schema : String := "generic_v1"
  volatile : Bool := false
deriving DecidableEq

/-- `Soken` of `src/core.py`. -/
structure Soken where
  did : String
  ddna_sha256 : String
  non_fungible : Bool := true
  unique_identity : Bool := true
  transferable : Bool := true
  merge_policy : String := "oae-consensus"
  digital_organs : List (String × DigitalOrgan) := []
  meta : MetaMap := []
deriving DecidableEq

/-- The effect dict returned by `OAE.resonance` in `src/core.py`. -/
structure Effect where
  effective_impact : ℚ
  learn_rate_prev : ℚ
  learn_rate_new : ℚ
  guard : ℚ
  target_organ : Option String
deriving DecidableEq

/-- Line 53 of `src/core.py`:
`effective = inten * align * (1.0 - self.params.entropy_guard * 0.6)`. -/
def effectiveImpact (p : OAEParams) (inten align : ℚ) : ℚ :=
  inten * align * (1 - p.entropy_guard * (3/5))

/-- `OAE.resonance` of `src/core.py` (lines 45-70).  This variant always
returns its effect dict (there is no ignored payload), always updates
`meta["effective_learn_rate"]`, and touches an organ entry never (organs of
this variant carry no properties); a truthy and present `organ_id` only sets
the `hot_organ` metadata. -/
def resonance (ctx : Context) (p : OAEParams) (now : ℚ) (s : Soken) :
    Soken × Effect :=
  let inten := ctx.intensity.getD (1/2)
  let align := ctx.alignment.getD (1/2)
  let effective := effectiveImpact p inten align
  let prev_lr := metaNum s.meta "effective_learn_rate" p.learn_rate
  let new_lr := max 0 (min 1 (prev_lr + effective * (1/20)))
  let meta1 := dictSet s.meta "effective_learn_rate" (MVal.num new_lr)
  let meta2 :=
    match ctx.organ_id with
    | some tid =>
      if tid ≠ "" ∧ dictContains s.digital_organs tid then
        dictSet (dictSet meta1 "hot_organ" (MVal.str tid)) "hot_organ_at" (MVal.num now)
      else meta1
    | none => meta1
  ({ s with meta := meta2 },
    ⟨effective, prev_lr, new_lr, p.entropy_guard, ctx.organ_id⟩)

/-- The dict returned by `OAE.decay_tick` in `src/core.py`. -/
structure DecayReport where
  affect_prev : ℚ
  affect_new : ℚ
  volatile_cooled : List String
deriving DecidableEq

/-- `OAE.decay_tick` of `src/core.py` (lines 72-87): the global affect decay
`new_emo = emo * (1.0 - 0.5 * decay)` on `meta["affect_level"]`, plus the
list of volatile organ ids.  The optional `now` argument only defaults the
unused timestamp and is omitted. -/
def decay_tick (p : OAEParams) (s : Soken) : Soken × DecayReport :=
  let emo := metaNum s.meta "affect_level" 0
  let new_emo := emo * (1 - (1/2) * p.memory_decay)
  let meta1 := dictSet s.meta "affect_level" (MVal.num new_emo)
  let cooled := (s.digital_organs.filter (fun e => e.2.volatile)).map Prod.fst
  ({ s with meta := meta1 }, ⟨emo, new_emo, cooled⟩)

/-- `self._checkpoint_dir` of `src/core.py` (line 43):
`self.soken.meta.get("checkpoint_dir", "./oae_ckpt")`. -/
def checkpointDir (s : Soken) : String :=
  match dictGet s.meta "checkpoint_dir" with
  | some (MVal.str d) => d
  | _ => "./oae_ckpt"

/-- The path returned by `OAE.checkpoint` in `src/core.py` (lines 116-121),
given the hex digest `digest` that the external `hashlib` collaborator
computes over the `json`-serialized payload bytes:
`{dir}/{label}_{digest[:16]}.json`.  The identity id does not appear in the
filename of this variant. -/
def checkpointPath (s : Soken) (label digest : String) : String :=
  checkpointDir s ++ "/" ++ (label ++ "_" ++ strTake digest 16 ++ ".json")

end Core

/-! ### Association-list lemmas -/

theorem dictGet_dictSet_self {α : Type} (m : List (String × α)) (k : String) (v : α) :
    dictGet (dictSet m k v) k = some v := by
  induction m with
  | nil => simp [dictSet, dictGet]
  | cons e rest ih =>
    by_cases h : e.1 = k
    · simp [dictSet, dictGet, h]
    · simp [dictSet, dictGet, h, ih]

theorem dictGet_dictSet_ne {α : Type} (m : List (String × α)) (k q : String) (v : α)
    (h : q ≠ k) : dictGet (dictSet m k v) q = dictGet m q := by
  have hk : k ≠ q := Ne.symm h
  induction m with
  | nil => simp [dictSet, dictGet, hk]
  | cons e rest ih =>
    by_cases he : e.1 = k
    · simp [dictSet, dictGet, he, hk]
    · simp only [dictSet, if_neg he, dictGet]
      by_cases hq : e.1 = q
      · rw [if_pos hq, if_pos hq]
      · rw [if_neg hq, if_neg hq, ih]

theorem getProp_dictSet_self (props : List (String × ℚ)) (k : String) (v d : ℚ) :
    getProp (dictSet props k v) k d = v := by
  simp [getProp, dictGet_dictSet_self]

theorem getProp_dictSet_ne (props : List (String × ℚ)) (k q : String) (v d : ℚ)
    (h : q ≠ k) : getProp (dictSet props k v) q d = getProp props q d := by
  simp [getProp, dictGet_dictSet_ne _ _ _ _ h]

theorem dictGet_map_pair {α β : Type} (g : α → β) (l : List (String × α)) (k : String) :
    dictGet (l.map (fun e => (e.1, g e.2))) k = (dictGet l k).map g := by
  induction l with
  | nil => simp [dictGet]
  | cons e rest ih => by_cases h : e.1 = k <;> simp [dictGet, h, ih]

theorem mem_of_dictGet {α : Type} {l : List (String × α)} {k : String} {v : α}
    (h : dictGet l k = some v) : (k, v) ∈ l := by
  induction l with
  | nil => simp [dictGet] at h
  | cons e rest ih =>
    obtain ⟨a, b⟩ := e
    by_cases he : a = k
    · subst he
      simp only [dictGet, if_pos] at h
      simp_all
    · simp only [dictGet, he, ite_false] at h
      exact List.mem_cons_of_mem _ (ih h)

theorem keys_of_mem_filter {α : Type} (f : String × α → Bool) (l : List (String × α))
    (k : String) (h : k ∈ (l.filter f).map Prod.fst) : k ∈ l.map Prod.fst := by
  rcases List.mem_map.mp h with ⟨e, he, hk⟩
  exact List.mem_map.mpr ⟨e, List.mem_of_mem_filter he, hk⟩

theorem mem_filter_keys {α : Type} (f : String × α → Bool) (l : List (String × α))
    (hnd : (l.map Prod.fst).Nodup) (k : String) (v : α) (h : dictGet l k = some v) :
    (k ∈ (l.filter f).map Prod.fst) ↔ f (k, v) = true := by
  induction l with
  | nil => simp [dictGet] at h
  | cons e rest ih =>
    rw [List.map_cons, List.nodup_cons] at hnd
    obtain ⟨a, b⟩ := e
    by_cases he : a = k
    · subst he
      have hb : b = v := by simpa [dictGet] using h
      subst hb
      by_cases hf : f (a, b) = true
      · simp [List.filter_cons, hf]
      · have hnm : a ∉ List.map Prod.fst (List.filter f rest) :=
          fun hm => hnd.1 (keys_of_mem_filter f rest a hm)
        simp [List.filter_cons, hf, hnm]
    · simp only [dictGet, he, ite_false] at h
      have hik := ih hnd.2 h
      have hka : ¬ k = a := fun hh => he hh.symm
      by_cases hf : f (a, b) = true <;> simp [List.filter_cons, hf, hik, hka]

/-! ### Behaviour lemmas for the `src/oae.py` engine -/

theorem motorProps_strength (p : Oae.OAEParams) (i : ℚ) (props : List (String × ℚ)) :
    getProp (Oae.motorProps p i props) "strength" 10 =
      min 100 (getProp props "strength" 10 + Oae.effectiveImpact p i * p.learn_rate) := by
  simp only [Oae.motorProps]
  rw [getProp_dictSet_ne _ _ _ _ _ (by decide), getProp_dictSet_self]

theorem motorProps_fatigue (p : Oae.OAEParams) (i : ℚ) (props : List (String × ℚ)) :
    getProp (Oae.motorProps p i props) "fatigue" 0 =
      min 100 (getProp props "fatigue" 0 + i * 10) := by
  simp only [Oae.motorProps]
  rw [getProp_dictSet_self, getProp_dictSet_ne _ _ _ _ _ (by decide)]

theorem resonance_not_found (ctx : Context) (p : Oae.OAEParams) (now : ℚ) (s : Oae.Soken)
    (h : ∀ tid, ctx.organ_id = some tid → tid = "" ∨ dictGet s.digital_organs tid = none) :
    Oae.resonance ctx p now s = (s, Oae.Report.noEffect "ignored" 0) := by
  unfold Oae.resonance
  cases hc : ctx.organ_id with
  | none => rfl
  | some tid =>
    dsimp only
    rcases h tid hc with h1 | h1
    · rw [if_pos h1]
    · by_cases h0 : tid = ""
      · rw [if_pos h0]
      · rw [if_neg h0, h1]

theorem resonance_found_motor (ctx : Context) (p : Oae.OAEParams) (now : ℚ) (s : Oae.Soken)
    (tid : String) (organ : Oae.DigitalOrgan)
    (htid : ctx.organ_id = some tid) (hne : tid ≠ "")
    (hget : dictGet s.digital_organs tid = some organ)
    (hmotor : strContains organ.schema "motor" = true) :
    Oae.resonance ctx p now s =
      ({ s with
          digital_organs := dictSet s.digital_organs tid
            { organ with properties := Oae.motorProps p (ctx.intensity.getD (1/2)) organ.properties },
          meta := dictSet (dictSet s.meta "last_active_organ" (MVal.str tid))
            "last_active_ts" (MVal.num now) },
        Oae.Report.motorEffect tid
          (Oae.effectiveImpact p (ctx.intensity.getD (1/2)) * p.learn_rate)
          (min 100 (getProp organ.properties "strength" 10 +
            Oae.effectiveImpact p (ctx.intensity.getD (1/2)) * p.learn_rate))
          (ctx.intensity.getD (1/2) * 10)) := by
  unfold Oae.resonance
  rw [htid]
  dsimp only
  rw [if_neg hne, hget]
  dsimp only
  rw [if_pos hmotor]

theorem resonance_found_nonmotor (ctx : Context) (p : Oae.OAEParams) (now : ℚ) (s : Oae.Soken)
    (tid : String) (organ : Oae.DigitalOrgan)
    (htid : ctx.organ_id = some tid) (hne : tid ≠ "")
    (hget : dictGet s.digital_organs tid = some organ)
    (hmotor : strContains organ.schema "motor" = false) :
    Oae.resonance ctx p now s =
      ({ s with
          meta := dictSet (dictSet s.meta "last_active_organ" (MVal.str tid))
            "last_active_ts" (MVal.num now) },
        Oae.Report.noEffect "ignored" 0) := by
  unfold Oae.resonance
  rw [htid]
  dsimp only
  rw [if_neg hne, hget]
  dsimp only
  rw [if_neg (by rw [hmotor]; exact Bool.false_ne_true)]

theorem decayProps_fatigue (p : Oae.OAEParams) (props : List (String × ℚ)) :
    getProp (Oae.decayProps p props).1 "fatigue" 0 =
      if 0 < getProp props "fatigue" 0
      then max 0 (getProp props "fatigue" 0 - getProp props "fatigue" 0 * p.recovery_rate)
      else getProp props "fatigue" 0 := by
  simp only [Oae.decayProps]
  split_ifs with h1 h2 h3 <;>
    simp_all [getProp_dictSet_self, getProp_dictSet_ne _ _ _ _ _ (by decide : ("fatigue" : String) ≠ "strength")]

theorem decayProps_strength (p : Oae.OAEParams) (props : List (String × ℚ)) :
    getProp (Oae.decayProps p props).1 "strength" 0 =
      if 10 < getProp props "strength" 0 ∧
          (if 0 < getProp props "fatigue" 0
            then max 0 (getProp props "fatigue" 0 - getProp props "fatigue" 0 * p.recovery_rate)
            else getProp props "fatigue" 0) < 1
      then getProp props "strength" 0 - getProp props "strength" 0 * (p.memory_decay * (1/100))
      else getProp props "strength" 0 := by
  simp only [Oae.decayProps]
  split_ifs with h1 h2 h3 h4 h5 <;>
    simp_all [getProp_dictSet_self,
      getProp_dictSet_ne _ _ _ _ _ (by decide : ("fatigue" : String) ≠ "strength"),
      getProp_dictSet_ne _ _ _ _ _ (by decide : ("strength" : String) ≠ "fatigue")]

theorem decayProps_recovered_flag (p : Oae.OAEParams) (props : List (String × ℚ)) :
    (Oae.decayProps p props).2.1 = decide (0 < getProp props "fatigue" 0) := by
  simp only [Oae.decayProps]
  split_ifs <;> rfl

theorem decayProps_atrophied_flag (p : Oae.OAEParams) (props : List (String × ℚ)) :
    ((Oae.decayProps p props).2.2 = true ↔
      10 < getProp props "strength" 0 ∧
        (if 0 < getProp props "fatigue" 0
          then max 0 (getProp props "fatigue" 0 - getProp props "fatigue" 0 * p.recovery_rate)
          else getProp props "fatigue" 0) < 1) := by
  simp only [Oae.decayProps]
  split_ifs with h1 h2 h3 <;>
    simp_all [getProp_dictSet_self,
      getProp_dictSet_ne _ _ _ _ _ (by decide : ("fatigue" : String) ≠ "strength"),
      getProp_dictSet_ne _ _ _ _ _ (by decide : ("strength" : String) ≠ "fatigue")]

theorem decayProps_unchanged (p : Oae.OAEParams) (props : List (String × ℚ))
    (h1 : ¬ 0 < getProp props "fatigue" 0)
    (h2 : ¬ (10 < getProp props "strength" 0 ∧ getProp props "fatigue" 0 < 1)) :
    (Oae.decayProps p props).1 = props := by
  simp only [Oae.decayProps]
  rw [if_neg h1, if_neg h2]

theorem decay_tick_organs (p : Oae.OAEParams) (s : Oae.Soken) (oid : String) :
    dictGet (Oae.decay_tick p s).1.digital_organs oid =
      (dictGet s.digital_organs oid).map
        (fun organ => { organ with properties := (Oae.decayProps p organ.properties).1 }) := by
  simp only [Oae.decay_tick]
  exact dictGet_map_pair
    (fun organ => { organ with properties := (Oae.decayProps p organ.properties).1 })
    s.digital_organs oid

theorem decay_tick_meta (p : Oae.OAEParams) (s : Oae.Soken) :
    (Oae.decay_tick p s).1.meta = s.meta := rfl

/-! ### Claims C1, C2, C3, C10: resonance -/

/-- Claim C1, counterexample: the claim asserts that `resonance` on a context
whose organ id is absent returns the canonical ignored result with impact 0.0.
The `src/core.py` variant instead returns its standard effect dict: on the
context `{intensity: 1, alignment: 1}` with no organ id and `entropy_guard =
0`, the reported `effective_impact` is 1, not 0. -/
theorem c1_core_reports_nonzero_impact :
    (Core.resonance ⟨none, some 1, some 1⟩ ⟨11/20, 0, 2/25⟩ 0
        ⟨"did:x", "h", true, true, true, "oae-consensus", [], []⟩).2.effective_impact = 1 ∧
    (1 : ℚ) ≠ 0 := by
  constructor
  · norm_num +decide [Core.resonance, Core.effectiveImpact, metaNum, dictGet]
  · norm_num

/-- Claim C1, amended: in the `src/oae.py` variant, `resonance` on a context
whose organ id is absent or not a key of `digital_organs` returns exactly
`{status: "ignored", impact: 0.0}` and leaves the whole Soken (organ
properties and meta alike) unchanged; the `src/core.py` variant returns its
effect dict instead (with possibly nonzero impact, see the counterexample)
and never mutates any organ entry, its organs carrying no properties. -/
theorem c1_unknown_target_noop (ctx : Context) (p : Oae.OAEParams) (cp : Core.OAEParams)
    (now : ℚ) (s : Oae.Soken) (cs : Core.Soken)
    (h : ∀ tid, ctx.organ_id = some tid → dictGet s.digital_organs tid = none) :
    Oae.resonance ctx p now s = (s, Oae.Report.noEffect "ignored" 0) ∧
    (Core.resonance ctx cp now cs).1.digital_organs = cs.digital_organs :=
  ⟨resonance_not_found ctx p now s (fun tid ht => Or.inr (h tid ht)), rfl⟩

/-- Claim C1, witness for the amended theorem at a concrete unknown organ id. -/
theorem c1_unknown_target_noop_witness :
    Oae.resonance ⟨some "ghost", some 1, none⟩ {} 0
        ⟨"did:x", "h", [("arm", ⟨"arm", "motor_v1", false,
          [("strength", 10), ("fatigue", 0), ("integrity", 100)]⟩)], []⟩ =
      (⟨"did:x", "h", [("arm", ⟨"arm", "motor_v1", false,
          [("strength", 10), ("fatigue", 0), ("integrity", 100)]⟩)], []⟩,
        Oae.Report.noEffect "ignored" 0) ∧
    (Core.resonance ⟨some "ghost", some 1, none⟩ {} 0
        ⟨"did:c", "h", true, true, true, "oae-consensus", [], []⟩).1.digital_organs = [] :=
  c1_unknown_target_noop ⟨some "ghost", some 1, none⟩ {} {} 0 _ _
    (fun tid ht => by
      obtain rfl : "ghost" = tid := Option.some.inj ht
      decide)

/-- Claim C2, counterexample: the claim asserts `effective_impact =
intensity * (1 - entropy_guard * c)`, a function of the intensity and the
guard only.  In `src/core.py` the `alignment` context field also enters: with
`entropy_guard = 0` and intensity 1, alignment 1 gives impact 1 while
alignment 0 gives impact 0, so no choice of the coefficient `c` matches. -/
theorem c2_alignment_enters_impact :
    (Core.resonance ⟨none, some 1, some 1⟩ ⟨11/20, 0, 2/25⟩ 0
        ⟨"did:y", "h", true, true, true, "oae-consensus", [], []⟩).2.effective_impact = 1 ∧
    (Core.resonance ⟨none, some 1, some 0⟩ ⟨11/20, 0, 2/25⟩ 0
        ⟨"did:y", "h", true, true, true, "oae-consensus", [], []⟩).2.effective_impact = 0 ∧
    (1 : ℚ) ≠ 0 := by
  refine ⟨?_, ?_, by norm_num⟩ <;>
    norm_num +decide [Core.resonance, Core.effectiveImpact, metaNum, dictGet]

/-- Claim C2, amended: the `src/oae.py` variant computes
`effective_impact = intensity * (1 - 0.3 * entropy_guard)` (visible in the
motor report as `strength_gain = effective_impact * learn_rate`), a function
of the intensity and the guard only; the `src/core.py` variant computes
`effective_impact = intensity * alignment * (1 - 0.6 * entropy_guard)`, so
the `alignment` context field also enters the formula there. -/
theorem c2_impact_formulas (ctx : Context) (p : Oae.OAEParams) (cp : Core.OAEParams)
    (now : ℚ) (s : Oae.Soken) (cs : Core.Soken) (tid : String) (organ : Oae.DigitalOrgan)
    (htid : ctx.organ_id = some tid) (hne : tid ≠ "")
    (hget : dictGet s.digital_organs tid = some organ)
    (hmotor : strContains organ.schema "motor" = true) :
    (Oae.resonance ctx p now s).2 =
      Oae.Report.motorEffect tid
        (ctx.intensity.getD (1/2) * (1 - p.entropy_guard * (3/10)) * p.learn_rate)
        (min 100 (getProp organ.properties "strength" 10 +
          ctx.intensity.getD (1/2) * (1 - p.entropy_guard * (3/10)) * p.learn_rate))
        (ctx.intensity.getD (1/2) * 10) ∧
    (Core.resonance ctx cp now cs).2.effective_impact =
      ctx.intensity.getD (1/2) * ctx.alignment.getD (1/2) * (1 - cp.entropy_guard * (3/5)) := by
  refine ⟨?_, rfl⟩
  rw [resonance_found_motor ctx p now s tid organ htid hne hget hmotor]
  rfl

/-- Claim C2, witness for the amended theorem on a concrete motor organ. -/
theorem c2_impact_formulas_witness :
    (Oae.resonance ⟨some "arm", some 1, none⟩ {} 0
        ⟨"did:x", "h", [("arm", ⟨"arm", "motor_v1_power", false,
          [("strength", 10), ("fatigue", 0), ("integrity", 100)]⟩)], []⟩).2 =
      Oae.Report.motorEffect "arm"
        ((1 : ℚ) * (1 - (17/20) * (3/10)) * (1/20))
        (min 100 (getProp [("strength", 10), ("fatigue", 0), ("integrity", 100)] "strength" 10 +
          (1 : ℚ) * (1 - (17/20) * (3/10)) * (1/20)))
        ((1 : ℚ) * 10) ∧
    (Core.resonance ⟨some "arm", some 1, none⟩ {} 0
        ⟨"did:c", "h", true, true, true, "oae-consensus", [], []⟩).2.effective_impact =
      (1 : ℚ) * (1/2) * (1 - (31/50) * (3/5)) :=
  c2_impact_formulas ⟨some "arm", some 1, none⟩ {} {} 0 _ _ "arm"
    ⟨"arm", "motor_v1_power", false, [("strength", 10), ("fatigue", 0), ("integrity", 100)]⟩
    rfl (by decide) rfl (by decide)

/-- Claim C3 (confirmed): when `resonance` is applied to a present (truthy)
organ id whose schema contains "motor", the organ's strength becomes
`min(100, old_strength + effective_impact * learn_rate)` and its fatigue
becomes `min(100, old_fatigue + intensity * 10)`. -/
theorem c3_motor_update (ctx : Context) (p : Oae.OAEParams) (now : ℚ) (s : Oae.Soken)
    (tid : String) (organ : Oae.DigitalOrgan)
    (htid : ctx.organ_id = some tid) (hne : tid ≠ "")
    (hget : dictGet s.digital_organs tid = some organ)
    (hmotor : strContains organ.schema "motor" = true) :
    ∃ organ2, dictGet (Oae.resonance ctx p now s).1.digital_organs tid = some organ2 ∧
      getProp organ2.properties "strength" 10 =
        min 100 (getProp organ.properties "strength" 10 +
          Oae.effectiveImpact p (ctx.intensity.getD (1/2)) * p.learn_rate) ∧
      getProp organ2.properties "fatigue" 0 =
        min 100 (getProp organ.properties "fatigue" 0 + ctx.intensity.getD (1/2) * 10) := by
  rw [resonance_found_motor ctx p now s tid organ htid hne hget hmotor]
  exact ⟨_, dictGet_dictSet_self _ _ _,
    motorProps_strength p _ organ.properties, motorProps_fatigue p _ organ.properties⟩

/-- Claim C3, witness on a concrete motor organ. -/
theorem c3_motor_update_witness :
    ∃ organ2, dictGet (Oae.resonance ⟨some "arm", some 1, none⟩ {} 0
        ⟨"did:x", "h", [("arm", ⟨"arm", "motor_v1_endurance", false,
          [("strength", 10), ("fatigue", 0), ("integrity", 100)]⟩)], []⟩).1.digital_organs
        "arm" = some organ2 ∧
      getProp organ2.properties "strength" 10 =
        min 100 (getProp [("strength", (10:ℚ)), ("fatigue", 0), ("integrity", 100)] "strength" 10 +
          Oae.effectiveImpact {} ((⟨some "arm", some 1, none⟩ : Context).intensity.getD (1/2)) *
            Oae.OAEParams.learn_rate {}) ∧
      getProp organ2.properties "fatigue" 0 =
        min 100 (getProp [("strength", (10:ℚ)), ("fatigue", 0), ("integrity", 100)] "fatigue" 0 +
          (⟨some "arm", some 1, none⟩ : Context).intensity.getD (1/2) * 10) :=
  c3_motor_update ⟨some "arm", some 1, none⟩ {} 0 _ "arm"
    ⟨"arm", "motor_v1_endurance", false, [("strength", 10), ("fatigue", 0), ("integrity", 100)]⟩
    rfl (by decide) rfl (by decide)

/-- Claim C10, counterexample: the claim asserts that for every PRESENT organ
id with a non-motor, non-cognitive schema the ignored report is returned AND
`meta.last_active_organ` is still updated.  The empty string is a possible
organ-dict key, yet Python truthiness (`if target_id and ...`) makes
`resonance` treat it exactly like an unknown id: the report is ignored but
`meta` is NOT updated. -/
theorem c10_empty_id_meta_untouched :
    dictContains
      ([("", (⟨"", "generic_v1", false,
        [("strength", 10), ("fatigue", 0), ("integrity", 100)]⟩ : Oae.DigitalOrgan))]) "" = true ∧
    strContains "generic_v1" "motor" = false ∧
    Oae.resonance ⟨some "", some 1, none⟩ {} 0
        ⟨"did:x", "h", [("", ⟨"", "generic_v1", false,
          [("strength", 10), ("fatigue", 0), ("integrity", 100)]⟩)], []⟩ =
      (⟨"did:x", "h", [("", ⟨"", "generic_v1", false,
          [("strength", 10), ("fatigue", 0), ("integrity", 100)]⟩)], []⟩,
        Oae.Report.noEffect "ignored" 0) ∧
    dictGet (Oae.resonance ⟨some "", some 1, none⟩ {} 0
        ⟨"did:x", "h", [("", ⟨"", "generic_v1", false,
          [("strength", 10), ("fatigue", 0), ("integrity", 100)]⟩)], []⟩).1.meta
      "last_active_organ" = none :=
  ⟨by decide, by decide, rfl, rfl⟩

/-- Claim C10, amended: when `resonance` is called with a NON-EMPTY organ id
that is present but whose schema does not contain "motor" (including the
cognitive no-op branch), the returned report is the same
`{status: "ignored", impact: 0.0}` value returned for an unknown organ id,
no organ property changes, and the meta keys `last_active_organ` /
`last_active_ts` are updated; the report alone cannot distinguish the two
cases.  For the empty-string id, which Python treats as falsy, meta stays
untouched (see the counterexample). -/
theorem c10_unmatched_schema_report (ctx : Context) (p : Oae.OAEParams) (now : ℚ)
    (s : Oae.Soken) (tid : String) (organ : Oae.DigitalOrgan)
    (htid : ctx.organ_id = some tid) (hne : tid ≠ "")
    (hget : dictGet s.digital_organs tid = some organ)
    (hnm : strContains organ.schema "motor" = false) :
    (Oae.resonance ctx p now s).2 = Oae.Report.noEffect "ignored" 0 ∧
    (Oae.resonance ctx p now s).2 = (Oae.resonance { ctx with organ_id := none } p now s).2 ∧
    (Oae.resonance ctx p now s).1.digital_organs = s.digital_organs ∧
    (Oae.resonance ctx p now s).1.meta =
      dictSet (dictSet s.meta "last_active_organ" (MVal.str tid))
        "last_active_ts" (MVal.num now) := by
  rw [resonance_found_nonmotor ctx p now s tid organ htid hne hget hnm]
  refine ⟨rfl, ?_, rfl, rfl⟩
  rw [resonance_not_found { ctx with organ_id := none } p now s
    (fun t ht => Option.noConfusion ht)]

/-- Claim C10, witness for the amended theorem on a concrete cognitive organ. -/
theorem c10_unmatched_schema_report_witness :
    (Oae.resonance ⟨some "mind", some 1, none⟩ {} 5
        ⟨"did:x", "h", [("mind", ⟨"mind", "cognitive_v1", false,
          [("strength", 10), ("fatigue", 0), ("integrity", 100)]⟩)], []⟩).2 =
      Oae.Report.noEffect "ignored" 0 ∧
    (Oae.resonance ⟨some "mind", some 1, none⟩ {} 5
        ⟨"did:x", "h", [("mind", ⟨"mind", "cognitive_v1", false,
          [("strength", 10), ("fatigue", 0), ("integrity", 100)]⟩)], []⟩).2 =
      (Oae.resonance { (⟨some "mind", some 1, none⟩ : Context) with organ_id := none } {} 5
        ⟨"did:x", "h", [("mind", ⟨"mind", "cognitive_v1", false,
          [("strength", 10), ("fatigue", 0), ("integrity", 100)]⟩)], []⟩).2 ∧
    (Oae.resonance ⟨some "mind", some 1, none⟩ {} 5
        ⟨"did:x", "h", [("mind", ⟨"mind", "cognitive_v1", false,
          [("strength", 10), ("fatigue", 0), ("integrity", 100)]⟩)], []⟩).1.digital_organs =
      [("mind", ⟨"mind", "cognitive_v1", false,
          [("strength", 10), ("fatigue", 0), ("integrity", 100)]⟩)] ∧
    (Oae.resonance ⟨some "mind", some 1, none⟩ {} 5
        ⟨"did:x", "h", [("mind", ⟨"mind", "cognitive_v1", false,
          [("strength", 10), ("fatigue", 0), ("integrity", 100)]⟩)], []⟩).1.meta =
      dictSet (dictSet [] "last_active_organ" (MVal.str "mind"))
        "last_active_ts" (MVal.num 5) :=
  c10_unmatched_schema_report ⟨some "mind", some 1, none⟩ {} 5 _ "mind"
    ⟨"mind", "cognitive_v1", false, [("strength", 10), ("fatigue", 0), ("integrity", 100)]⟩
    rfl (by decide) rfl (by decide)

/-! ### Claims C4, C5, C6: decay -/

/-- Claim C4 (confirmed): one `decay_tick` reduces each organ's fatigue by
`fatigue * recovery_rate` (floored at 0) whenever fatigue is positive,
recording the organ as recovered, and reduces strength by
`strength * memory_decay * 0.01` whenever strength exceeds 10 and the
(post-recovery, as the source checks sequentially) fatigue is below 1,
recording the organ as atrophied; an organ failing both conditions is
unchanged.  Keys are assumed unique as in a Python dict. -/
theorem c4_decay_per_organ (p : Oae.OAEParams) (s : Oae.Soken) (oid : String)
    (organ : Oae.DigitalOrgan)
    (hnd : (s.digital_organs.map Prod.fst).Nodup)
    (hget : dictGet s.digital_organs oid = some organ) :
    ∃ organ2, dictGet (Oae.decay_tick p s).1.digital_organs oid = some organ2 ∧
      getProp organ2.properties "fatigue" 0 =
        (if 0 < getProp organ.properties "fatigue" 0
          then max 0 (getProp organ.properties "fatigue" 0 -
            getProp organ.properties "fatigue" 0 * p.recovery_rate)
          else getProp organ.properties "fatigue" 0) ∧
      getProp organ2.properties "strength" 0 =
        (if 10 < getProp organ.properties "strength" 0 ∧
            (if 0 < getProp organ.properties "fatigue" 0
              then max 0 (getProp organ.properties "fatigue" 0 -
                getProp organ.properties "fatigue" 0 * p.recovery_rate)
              else getProp organ.properties "fatigue" 0) < 1
          then getProp organ.properties "strength" 0 -
            getProp organ.properties "strength" 0 * (p.memory_decay * (1/100))
          else getProp organ.properties "strength" 0) ∧
      (oid ∈ (Oae.decay_tick p s).2.recovered ↔ 0 < getProp organ.properties "fatigue" 0) ∧
      (oid ∈ (Oae.decay_tick p s).2.atrophied ↔
        10 < getProp organ.properties "strength" 0 ∧
          (if 0 < getProp organ.properties "fatigue" 0
            then max 0 (getProp organ.properties "fatigue" 0 -
              getProp organ.properties "fatigue" 0 * p.recovery_rate)
            else getProp organ.properties "fatigue" 0) < 1) ∧
      ((¬ 0 < getProp organ.properties "fatigue" 0) →
        (¬ (10 < getProp organ.properties "strength" 0 ∧
          getProp organ.properties "fatigue" 0 < 1)) → organ2 = organ) := by
  have horg := decay_tick_organs p s oid
  rw [hget] at horg
  have hrec : (Oae.decay_tick p s).2.recovered =
      (s.digital_organs.filter (fun e => (Oae.decayProps p e.2.properties).2.1)).map Prod.fst :=
    rfl
  have hatr : (Oae.decay_tick p s).2.atrophied =
      (s.digital_organs.filter (fun e => (Oae.decayProps p e.2.properties).2.2)).map Prod.fst :=
    rfl
  refine ⟨{ organ with properties := (Oae.decayProps p organ.properties).1 },
    ?_, ?_, ?_, ?_, ?_, ?_⟩
  · rw [horg]; rfl
  · exact decayProps_fatigue p organ.properties
  · exact decayProps_strength p organ.properties
  · rw [hrec, mem_filter_keys _ s.digital_organs hnd oid organ hget]
    simp [decayProps_recovered_flag]
  · rw [hatr, mem_filter_keys _ s.digital_organs hnd oid organ hget]
    exact decayProps_atrophied_flag p organ.properties
  · intro h1 h2
    rw [decayProps_unchanged p organ.properties h1 h2]

/-- Claim C4, witness: a concrete organ with strength 50 and fatigue 1 both
recovers (fatigue 1 -> 0.8) and, being rested afterwards (0.8 < 1) and above
baseline, atrophies (strength 50 -> 50 - 50*0.1*0.01). -/
theorem c4_decay_per_organ_witness :
    ∃ organ2, dictGet (Oae.decay_tick {}
        ⟨"did:x", "h", [("arm", ⟨"arm", "motor_v1", false,
          [("strength", 50), ("fatigue", 1), ("integrity", 100)]⟩)], []⟩).1.digital_organs
        "arm" = some organ2 ∧
      getProp organ2.properties "fatigue" 0 = 4/5 ∧
      getProp organ2.properties "strength" 0 = 50 - 50 * ((1/10) * (1/100)) ∧
      "arm" ∈ (Oae.decay_tick {}
        ⟨"did:x", "h", [("arm", ⟨"arm", "motor_v1", false,
          [("strength", 50), ("fatigue", 1), ("integrity", 100)]⟩)], []⟩).2.recovered ∧
      "arm" ∈ (Oae.decay_tick {}
        ⟨"did:x", "h", [("arm", ⟨"arm", "motor_v1", false,
          [("strength", 50), ("fatigue", 1), ("integrity", 100)]⟩)], []⟩).2.atrophied := by
  obtain ⟨o2, hg, hfat, hstr, hrec, hatr, _⟩ :=
    c4_decay_per_organ {} ⟨"did:x", "h", [("arm", ⟨"arm", "motor_v1", false,
      [("strength", 50), ("fatigue", 1), ("integrity", 100)]⟩)], []⟩ "arm"
      ⟨"arm", "motor_v1", false, [("strength", 50), ("fatigue", 1), ("integrity", 100)]⟩
      (by decide) rfl
  refine ⟨o2, hg, ?_, ?_, ?_, ?_⟩
  · rw [hfat]; norm_num +decide [getProp, dictGet]
  · rw [hstr]; norm_num +decide [getProp, dictGet]
  · exact hrec.mpr (by norm_num +decide [getProp, dictGet])
  · exact hatr.mpr (by norm_num +decide [getProp, dictGet])

/-- Claim C5, counterexample: the claim asserts that EVERY `decay_tick` call
replaces the identity-wide `affect_level` by
`affect_level * (1 - 0.5 * memory_decay)` and reports the before/after
values.  The `src/oae.py` variant's `decay_tick` does not touch `meta` at
all: with `affect_level = 1` and default `memory_decay = 0.1` it leaves the
value at 1, while the claim demands `0.95`. -/
theorem c5_oae_decay_no_affect :
    (Oae.decay_tick {} ⟨"did:x", "h", [], [("affect_level", MVal.num 1)]⟩).1.meta =
      [("affect_level", MVal.num 1)] ∧
    metaNum [("affect_level", MVal.num 1)] "affect_level" 0 = 1 ∧
    (1 : ℚ) ≠ 1 * (1 - (1/2) * (1/10)) := by
  refine ⟨rfl, rfl, by norm_num⟩

/-- Claim C5, amended: the `src/core.py` variant's `decay_tick` replaces
`meta.affect_level` by `affect_level * (1 - 0.5 * memory_decay)` and returns
the before and after values in its report; the `src/oae.py` variant's
`decay_tick` leaves `meta` (and hence any `affect_level`) unchanged and its
summary carries only the recovered/atrophied lists. -/
theorem c5_affect_decay_core (p : Core.OAEParams) (s : Core.Soken)
    (q : Oae.OAEParams) (t : Oae.Soken) :
    (Core.decay_tick p s).2.affect_prev = metaNum s.meta "affect_level" 0 ∧
    (Core.decay_tick p s).2.affect_new =
      metaNum s.meta "affect_level" 0 * (1 - (1/2) * p.memory_decay) ∧
    metaNum (Core.decay_tick p s).1.meta "affect_level" 0 =
      metaNum s.meta "affect_level" 0 * (1 - (1/2) * p.memory_decay) ∧
    (Oae.decay_tick q t).1.meta = t.meta := by
  refine ⟨rfl, rfl, ?_, rfl⟩
  show metaNum (dictSet s.meta "affect_level" (MVal.num _)) "affect_level" 0 = _
  simp [metaNum, dictGet_dictSet_self]

/-- Claim C6 (confirmed): with all four parameters in `[0,1]` and every
organ's strength and fatigue non-negative, `decay_tick` never produces a
negative fatigue or strength and never increases any organ's strength. -/
theorem c6_decay_nonneg (p : Oae.OAEParams) (s : Oae.Soken)
    (hmd0 : 0 ≤ p.memory_decay) (hmd1 : p.memory_decay ≤ 1)
    (_heg0 : 0 ≤ p.entropy_guard) (_heg1 : p.entropy_guard ≤ 1)
    (_hlr0 : 0 ≤ p.learn_rate) (_hlr1 : p.learn_rate ≤ 1)
    (_hrr0 : 0 ≤ p.recovery_rate) (_hrr1 : p.recovery_rate ≤ 1)
    (hnn : ∀ e ∈ s.digital_organs, 0 ≤ getProp e.2.properties "strength" 0 ∧
      0 ≤ getProp e.2.properties "fatigue" 0)
    (oid : String) (organ : Oae.DigitalOrgan)
    (hget : dictGet s.digital_organs oid = some organ) :
    ∃ organ2, dictGet (Oae.decay_tick p s).1.digital_organs oid = some organ2 ∧
      0 ≤ getProp organ2.properties "fatigue" 0 ∧
      0 ≤ getProp organ2.properties "strength" 0 ∧
      getProp organ2.properties "strength" 0 ≤ getProp organ.properties "strength" 0 := by
  have hmem := hnn _ (mem_of_dictGet hget)
  have horg := decay_tick_organs p s oid
  rw [hget] at horg
  refine ⟨_, horg, ?_, ?_, ?_⟩
  · rw [decayProps_fatigue]
    split_ifs with h
    · exact le_max_left 0 _
    · exact hmem.2
  · rw [decayProps_strength]
    split_ifs with h1 h2 h3
    · nlinarith [h2.1, hmd0, hmd1]
    · exact hmem.1
    · nlinarith [h3.1, hmd0, hmd1]
    · exact hmem.1
  · rw [decayProps_strength]
    split_ifs with h1 h2 h3
    · nlinarith [h2.1, hmd0]
    · exact le_refl _
    · nlinarith [h3.1, hmd0]
    · exact le_refl _

/-- Claim C6, witness on a concrete two-organ identity. -/
theorem c6_decay_nonneg_witness :
    ∃ organ2, dictGet (Oae.decay_tick {}
        ⟨"did:x", "h", [("arm", ⟨"arm", "motor_v1", false,
          [("strength", 50), ("fatigue", 0), ("integrity", 100)]⟩)], []⟩).1.digital_organs
        "arm" = some organ2 ∧
      0 ≤ getProp organ2.properties "fatigue" 0 ∧
      0 ≤ getProp organ2.properties "strength" 0 ∧
      getProp organ2.properties "strength" 0 ≤
        getProp [("strength", (50:ℚ)), ("fatigue", 0), ("integrity", 100)] "strength" 0 :=
  c6_decay_nonneg {} _ (by norm_num) (by norm_num) (by norm_num) (by norm_num)
    (by norm_num) (by norm_num) (by norm_num) (by norm_num)
    (by intro e he
        simp only [List.mem_singleton] at he
        subst he
        refine ⟨?_, ?_⟩ <;> norm_num +decide [getProp, dictGet])
    "arm" ⟨"arm", "motor_v1", false, [("strength", 50), ("fatigue", 0), ("integrity", 100)]⟩ rfl

/-! ### Claims C7, C8: resonance invariants -/

/-- Case analysis of the organ dict after one `resonance` call: either it is
untouched, or exactly the found organ was replaced by its motor update. -/
theorem resonance_organs_cases (c : Context) (p : Oae.OAEParams) (now : ℚ) (s : Oae.Soken) :
    (Oae.resonance c p now s).1.digital_organs = s.digital_organs ∨
    ∃ tid organ, dictGet s.digital_organs tid = some organ ∧
      (Oae.resonance c p now s).1.digital_organs =
        dictSet s.digital_organs tid
          { organ with properties := Oae.motorProps p (c.intensity.getD (1/2)) organ.properties } := by
  unfold Oae.resonance
  cases hc : c.organ_id with
  | none => exact Or.inl rfl
  | some tid =>
    dsimp only
    by_cases h0 : tid = ""
    · rw [if_pos h0]
      exact Or.inl rfl
    · rw [if_neg h0]
      cases hget : dictGet s.digital_organs tid with
      | none => exact Or.inl rfl
      | some organ =>
        dsimp only
        by_cases hm : strContains organ.schema "motor"
        · rw [if_pos hm]
          exact Or.inr ⟨tid, organ, hget, rfl⟩
        · rw [if_neg hm]
          exact Or.inl rfl

/-- One `resonance` call preserves the 100.0 upper bounds on every organ's
strength and fatigue. -/
theorem resonance_preserves_clamp (c : Context) (p : Oae.OAEParams) (now : ℚ)
    (s : Oae.Soken) (oid : String) (organ : Oae.DigitalOrgan)
    (hget : dictGet s.digital_organs oid = some organ)
    (hs : getProp organ.properties "strength" 10 ≤ 100)
    (hf : getProp organ.properties "fatigue" 0 ≤ 100) :
    ∃ organ2, dictGet (Oae.resonance c p now s).1.digital_organs oid = some organ2 ∧
      getProp organ2.properties "strength" 10 ≤ 100 ∧
      getProp organ2.properties "fatigue" 0 ≤ 100 := by
  rcases resonance_organs_cases c p now s with h | ⟨tid, organ1, hget1, h⟩
  · rw [h]
    exact ⟨organ, hget, hs, hf⟩
  · rw [h]
    by_cases hoid : oid = tid
    · subst hoid
      refine ⟨_, dictGet_dictSet_self _ _ _, ?_, ?_⟩
      · rw [motorProps_strength]
        exact min_le_left _ _
      · rw [motorProps_fatigue]
        exact min_le_left _ _
    · rw [dictGet_dictSet_ne _ _ _ _ hoid]
      exact ⟨organ, hget, hs, hf⟩

/-- The engine state after a finite sequence of `resonance` calls, each with
its own stimulus context. -/
def applyStimuli (p : Oae.OAEParams) (now : ℚ) (ctxs : List Context) (s : Oae.Soken) :
    Oae.Soken :=
  ctxs.foldl (fun st c => (Oae.resonance c p now st).1) s

/-- Any finite sequence of `resonance` calls preserves the 100.0 bounds. -/
theorem applyStimuli_clamp (p : Oae.OAEParams) (now : ℚ) (ctxs : List Context) :
    ∀ (s : Oae.Soken) (oid : String) (organ : Oae.DigitalOrgan),
      dictGet s.digital_organs oid = some organ →
      getProp organ.properties "strength" 10 ≤ 100 →
      getProp organ.properties "fatigue" 0 ≤ 100 →
      ∃ organ2, dictGet (applyStimuli p now ctxs s).digital_organs oid = some organ2 ∧
        getProp organ2.properties "strength" 10 ≤ 100 ∧
        getProp organ2.properties "fatigue" 0 ≤ 100 := by
  induction ctxs with
  | nil => exact fun s oid organ hget hs hf => ⟨organ, hget, hs, hf⟩
  | cons c rest ih =>
    intro s oid organ hget hs hf
    obtain ⟨organ2, hget2, hs2, hf2⟩ := resonance_preserves_clamp c p now s oid organ hget hs hf
    exact ih _ oid organ2 hget2 hs2 hf2

/-- Claim C7 (confirmed): a motor organ whose strength and fatigue start at or
below 100.0 never exceeds either bound under any finite sequence of
`resonance` calls (in particular repeated intensity-1.0 stimuli). -/
theorem c7_resonance_clamped (p : Oae.OAEParams) (now : ℚ) (ctxs : List Context)
    (s : Oae.Soken) (oid : String) (organ : Oae.DigitalOrgan)
    (hget : dictGet s.digital_organs oid = some organ)
    (_hmotor : strContains organ.schema "motor" = true)
    (hs : getProp organ.properties "strength" 10 ≤ 100)
    (hf : getProp organ.properties "fatigue" 0 ≤ 100) :
    ∃ organ2, dictGet (applyStimuli p now ctxs s).digital_organs oid = some organ2 ∧
      getProp organ2.properties "strength" 10 ≤ 100 ∧
      getProp organ2.properties "fatigue" 0 ≤ 100 :=
  applyStimuli_clamp p now ctxs s oid organ hget hs hf

/-- Claim C7, witness: two intensity-1.0 stimuli against a concrete motor
organ. -/
theorem c7_resonance_clamped_witness :
    ∃ organ2, dictGet (applyStimuli {} 0
        [⟨some "arm", some 1, none⟩, ⟨some "arm", some 1, none⟩]
        ⟨"did:x", "h", [("arm", ⟨"arm", "motor_v1_power", false,
          [("strength", 10), ("fatigue", 0), ("integrity", 100)]⟩)], []⟩).digital_organs
        "arm" = some organ2 ∧
      getProp organ2.properties "strength" 10 ≤ 100 ∧
      getProp organ2.properties "fatigue" 0 ≤ 100 :=
  c7_resonance_clamped {} 0 [⟨some "arm", some 1, none⟩, ⟨some "arm", some 1, none⟩] _ "arm"
    ⟨"arm", "motor_v1_power", false, [("strength", 10), ("fatigue", 0), ("integrity", 100)]⟩
    rfl (by decide) (by norm_num +decide [getProp, dictGet]) (by norm_num +decide [getProp, dictGet])

/-- Claim C8 (confirmed): for intensity and entropy guard in `[0,1]`, the
effective impact of `src/oae.py` is non-negative and non-increasing in the
guard; the same holds for the `src/core.py` formula once its additional
alignment factor is also in `[0,1]`. -/
theorem c8_impact_nonneg_antitone (i a g g2 md lr rr : ℚ)
    (hi0 : 0 ≤ i) (_hi1 : i ≤ 1) (ha0 : 0 ≤ a) (_ha1 : a ≤ 1)
    (_hg0 : 0 ≤ g) (hg1 : g ≤ 1) (_hg20 : 0 ≤ g2) (_hg21 : g2 ≤ 1) (hgle : g ≤ g2) :
    0 ≤ Oae.effectiveImpact ⟨md, g, lr, rr⟩ i ∧
    Oae.effectiveImpact ⟨md, g2, lr, rr⟩ i ≤ Oae.effectiveImpact ⟨md, g, lr, rr⟩ i ∧
    0 ≤ Core.effectiveImpact ⟨md, g, lr⟩ i a ∧
    Core.effectiveImpact ⟨md, g2, lr⟩ i a ≤ Core.effectiveImpact ⟨md, g, lr⟩ i a := by
  simp only [Oae.effectiveImpact, Core.effectiveImpact]
  refine ⟨?_, ?_, ?_, ?_⟩
  · nlinarith
  · nlinarith
  · nlinarith [mul_nonneg hi0 ha0]
  · nlinarith [mul_nonneg hi0 ha0]

/-- Claim C8, witness at concrete values. -/
theorem c8_impact_nonneg_antitone_witness :
    0 ≤ Oae.effectiveImpact ⟨1/10, 1/4, 1/20, 1/5⟩ (1/2) ∧
    Oae.effectiveImpact ⟨1/10, 3/4, 1/20, 1/5⟩ (1/2) ≤
      Oae.effectiveImpact ⟨1/10, 1/4, 1/20, 1/5⟩ (1/2) ∧
    0 ≤ Core.effectiveImpact ⟨1/10, 1/4, 1/20⟩ (1/2) (1/2) ∧
    Core.effectiveImpact ⟨1/10, 3/4, 1/20⟩ (1/2) (1/2) ≤
      Core.effectiveImpact ⟨1/10, 1/4, 1/20⟩ (1/2) (1/2) :=
  c8_impact_nonneg_antitone (1/2) (1/2) (1/4) (3/4) (1/10) (1/20) (1/5)
    (by norm_num) (by norm_num) (by norm_num) (by norm_num) (by norm_num)
    (by norm_num) (by norm_num) (by norm_num) (by norm_num)

/-! ### Claim C9: checkpoint paths -/

/-- Claim C9, counterexample: the claim asserts the checkpoint filename is
derived from the identity id, the label and a hash suffix.  In the
`src/core.py` variant the filename is `{label}_{digest[:16]}.json`: two
identities differing only in their `did` receive the identical path for the
same label and digest, so the identity id is not a component of the name
there. -/
theorem c9_core_path_ignores_did :
    Core.checkpointPath ⟨"did:mitas:alice", "h", true, true, true, "oae-consensus", [], []⟩
        "post" "0123456789abcdef0123456789abcdef" =
      Core.checkpointPath ⟨"did:mitas:bob", "h", true, true, true, "oae-consensus", [], []⟩
        "post" "0123456789abcdef0123456789abcdef" ∧
    ("did:mitas:alice" : String) ≠ "did:mitas:bob" :=
  ⟨rfl, by decide⟩

/-- Claim C9, amended: the `src/oae.py` variant derives the checkpoint path
from the last colon-segment of the identity id, the label, and the first 12
hex characters of the content digest (so only those 12 characters matter);
the `src/core.py` variant derives it from the label and the first 16 hex
characters only, the identity id entering only through the hashed payload.
Both variants return the derived path. -/
theorem c9_path_components (t : Oae.Soken) (s1 s2 : Core.Soken)
    (label d1 d2 e1 e2 : String)
    (h12 : strTake d1 12 = strTake d2 12) (h16 : strTake e1 16 = strTake e2 16)
    (hmeta : s1.meta = s2.meta) :
    Oae.checkpointPath t label d1 = Oae.checkpointPath t label d2 ∧
    Core.checkpointPath s1 label e1 = Core.checkpointPath s2 label e2 ∧
    Oae.checkpointPath t label d1 =
      "./oae_checkpoints" ++ "/" ++
        (Oae.lastColonSegment t.did ++ "_" ++ label ++ "_" ++ strTake d1 12 ++ ".json") ∧
    Core.checkpointPath s1 label e1 =
      Core.checkpointDir s1 ++ "/" ++ (label ++ "_" ++ strTake e1 16 ++ ".json") := by
  refine ⟨?_, ?_, rfl, rfl⟩
  · unfold Oae.checkpointPath
    rw [h12]
  · unfold Core.checkpointPath Core.checkpointDir
    rw [h16, hmeta]

/-- Claim C9, witness: two digests agreeing on their relevant prefixes. -/
theorem c9_path_components_witness :
    Oae.checkpointPath ⟨"did:world:0xabc", "h", [], []⟩ "post" "0123456789abXXXX" =
      Oae.checkpointPath ⟨"did:world:0xabc", "h", [], []⟩ "post" "0123456789abYYYY" ∧
    Core.checkpointPath ⟨"did:m:a", "h", true, true, true, "oae-consensus", [], []⟩
        "post" "0123456789abcdefXX" =
      Core.checkpointPath ⟨"did:m:a", "h", true, true, true, "oae-consensus", [], []⟩
        "post" "0123456789abcdefYY" ∧
    Oae.checkpointPath ⟨"did:world:0xabc", "h", [], []⟩ "post" "0123456789abXXXX" =
      "./oae_checkpoints" ++ "/" ++
        (Oae.lastColonSegment (Oae.Soken.did ⟨"did:world:0xabc", "h", [], []⟩) ++ "_" ++
          "post" ++ "_" ++ strTake "0123456789abXXXX" 12 ++ ".json") ∧
    Core.checkpointPath ⟨"did:m:a", "h", true, true, true, "oae-consensus", [], []⟩
        "post" "0123456789abcdefXX" =
      Core.checkpointDir ⟨"did:m:a", "h", true, true, true, "oae-consensus", [], []⟩ ++ "/" ++
        ("post" ++ "_" ++ strTake "0123456789abcdefXX" 16 ++ ".json") :=
  c9_path_components ⟨"did:world:0xabc", "h", [], []⟩
    ⟨"did:m:a", "h", true, true, true, "oae-consensus", [], []⟩
    ⟨"did:m:a", "h", true, true, true, "oae-consensus", [], []⟩
    "post" "0123456789abXXXX" "0123456789abYYYY" "0123456789abcdefXX" "0123456789abcdefYY"
    (by decide) (by decide) rfl
